import Mathlib

/-!
# Checkout backend verification

A shallow embedding of an e-commerce PIX checkout backend consisting of a
charge-creation handler, a payment-provider webhook handler, a Payment
Provider (SlimPay) client and a Tracking Service (UTMfy) client.

Modelling conventions:
* JavaScript numbers holding currency values are modelled as `ℚ`;
  `Math.round` is modelled by `jsRound` (floor of `x + 1/2`, which is the
  round-half-up behaviour of `Math.round`).
* JavaScript strings are `String`; `undefined`/absent optional values are
  `Option`; JS string truthiness (`undefined` and `""` are falsy) is made
  explicit through `strOrElse` / `truthyOpt` / `envTruthy`.
* Network effects are parameters: outbound HTTP calls made by a handler are
  recorded in the handler's output (`pixCall` / `utmfyCall`), and the results
  of external calls are supplied by oracle arguments, so that theorems can
  quantify over every possible collaborator behaviour.
* `replace(/\D/g, "")` is character filtering; `slice` on digit strings is
  take/drop at the character level.
-/

namespace Validado

/-- JS `a || dflt` for an optional string `a`: `undefined` and `""` are falsy. -/
def strOrElse (a : Option String) (dflt : String) : String :=
  match a with
  | none => dflt
  | some s => if s = "" then dflt else s

/-- Collapse a JS optional string to `none` when it is falsy (`undefined` or `""`). -/
def truthyOpt (a : Option String) : Option String :=
  match a with
  | none => none
  | some s => if s = "" then none else some s

/-- Truthiness of an environment variable: set and non-empty. -/
def envTruthy (a : Option String) : Bool :=
  match a with
  | none => false
  | some s => s != ""

/-- JS `Math.round` on a rational: round half away from negative infinity. -/
def jsRound (q : ℚ) : ℤ := ⌊q + 1/2⌋

/-- JS `s.replace(/\D/g, "")`: keep exactly the decimal-digit characters. -/
def stripNonDigits (s : String) : String := String.mk (s.data.filter Char.isDigit)

/-- JS `s.toLowerCase()` at the character level. -/
def toLowerStr (s : String) : String := String.mk (s.data.map Char.toLower)

/-! ## Checkout request data (charge-creation handler input) -/

/-- Customer block of the checkout body (`customer` field). -/
structure Customer where
  name : String
  email : String
  cpf : String
  phone : String
deriving DecidableEq

/-- Address block of the checkout body (`address` field). -/
structure Address where
  cep : String
  street : String
  number : String
  complement : Option String
  neighborhood : String
  city : String
  state : String
deriving DecidableEq

/-- Cart line item of the checkout body (`items` entries). -/
structure Item where
  id : String
  name : String
  price : ℚ
  quantity : ℚ
deriving DecidableEq

/-- Shipping option of the checkout body (`shipping` field). -/
structure Shipping where
  id : String
  name : String
  price : ℚ
  days : String
deriving DecidableEq

/-- Marketing attribution parameters (`trackingParams` field), each optional. -/
structure TrackingParams where
  src : Option String
  sck : Option String
  utm_source : Option String
  utm_medium : Option String
  utm_campaign : Option String
  utm_content : Option String
  utm_term : Option String
deriving DecidableEq

/-- The all-absent attribution bag, the JS `{}` fallback of `trackingParams || {}`. -/
def emptyTrackingParams : TrackingParams :=
  ⟨none, none, none, none, none, none, none⟩

/-- The full checkout request body (`CreatePixRequest`). -/
structure CreatePixRequest where
  customer : Customer
  address : Address
  items : List Item
  total : ℚ
  shipping : Option Shipping
  trackingParams : Option TrackingParams
deriving DecidableEq

/-! ## Payment Provider (SlimPay) client -/

/-- Address subfield of the client sent to the Payment Provider. -/
structure SlimAddress where
  country : String
  zipCode : String
  state : String
  city : String
  neighborhood : String
  street : String
  number : String
  complement : String
deriving DecidableEq

/-- Client block sent to the Payment Provider create-charge operation. -/
structure SlimClient where
  name : String
  email : String
  phone : String
  document : String
  cpf : String
  address : SlimAddress
deriving DecidableEq

/-- Product entry sent to the Payment Provider create-charge operation. -/
structure SlimProduct where
  id : String
  name : String
  price : ℚ
  quantity : ℚ
deriving DecidableEq

/-- The argument record of one `createPixPayment` invocation. -/
structure PixCallArgs where
  identifier : String
  amount : ℚ
  shippingFee : ℚ
  discount : ℚ
  client : SlimClient
  products : List SlimProduct
  metadata : List (String × String)
  callbackUrl : String
deriving DecidableEq

/-- Parsed successful create-charge response body (`SlimPayPixResponse`). -/
structure PixData where
  transactionId : String
  status : String
  fee : ℚ
  orderId : String
  orderAmount : ℚ
  orderCurrency : String
  qrCode : String
  expiresAt : String
deriving DecidableEq

/-- Result of `createPixPayment`: parsed success data, or a failure whose
optional message comes from the provider error body. -/
inductive PixResult where
  | ok (d : PixData)
  | err (msg : Option String)
deriving DecidableEq

/-- Webhook token verification (`verifyWebhookToken`): skipped (true) when no
expected token is configured (JS falsy), otherwise string equality. -/
def verifyWebhookToken (receivedToken : String) (expectedToken : Option String) : Bool :=
  match expectedToken with
  | none => true
  | some s => if s = "" then true else receivedToken == s

/-- Payment Provider status vocabulary to internal status (`mapSlimPayStatus`). -/
def mapSlimPayStatus (status : String) : String :=
  match status with
  | "COMPLETED" => "paid"
  | "PENDING" => "waiting_payment"
  | "FAILED" => "refused"
  | "REJECTED" => "refused"
  | "CANCELED" => "refused"
  | "REFUNDED" => "refunded"
  | "CHARGED_BACK" => "chargedback"
  | _ => "waiting_payment"

/-! ## Tracking Service (UTMfy) client -/

/-- Commission breakdown in integer cents. -/
structure Commission where
  totalPriceInCents : ℤ
  gatewayFeeInCents : ℤ
  userCommissionInCents : ℤ
deriving DecidableEq

/-- Reduced customer block of `SendOrderParams`. -/
structure UtmfyCustomerParam where
  name : String
  email : String
  phone : String
  document : String
  country : Option String
deriving DecidableEq

/-- Reduced product block of `SendOrderParams`. -/
structure UtmfyProductParam where
  id : String
  name : String
  quantity : ℚ
  priceInCents : ℤ
deriving DecidableEq

/-- The argument record of one `sendOrderToUtmfy` invocation (`SendOrderParams`). -/
structure SendOrderParams where
  orderId : String
  status : String
  paymentMethod : String
  customer : UtmfyCustomerParam
  products : List UtmfyProductParam
  commission : Commission
  trackingParams : Option TrackingParams
  approvedDate : Option String
deriving DecidableEq

/-- Customer block of the serialized Attribution report (`UtmfyCustomer`). -/
structure UtmfyCustomer where
  name : String
  email : String
  phone : String
  document : String
  country : String
deriving DecidableEq

/-- Product block of the serialized Attribution report (`UtmfyProduct`). -/
structure UtmfyProduct where
  id : String
  name : String
  planId : Option String
  planName : Option String
  quantity : ℚ
  priceInCents : ℤ
deriving DecidableEq

/-- Commission block of the serialized Attribution report (`UtmfyCommission`). -/
structure UtmfyCommission where
  totalPriceInCents : ℤ
  gatewayFeeInCents : ℤ
  userCommissionInCents : ℤ
  currency : String
deriving DecidableEq

/-- The Attribution report body POSTed to the Tracking Service
(`UtmfyOrderRequest`). -/
structure UtmfyOrderRequest where
  orderId : String
  platform : String
  paymentMethod : String
  status : String
  createdAt : String
  approvedDate : Option String
  refundedAt : Option String
  customer : UtmfyCustomer
  products : List UtmfyProduct
  trackingParameters : TrackingParams
  commission : UtmfyCommission
deriving DecidableEq

/-- An HTTP response as seen by `fetch`: ok flag (status in 200-299) and body text. -/
structure HttpResponse where
  ok : Bool
  body : String
deriving DecidableEq

/-- The structured result value of `sendOrderToUtmfy`. -/
structure UtmfySendResult where
  success : Bool
  error : Option String
  response : Option String
deriving DecidableEq

/-- Builds the Attribution report from `SendOrderParams`, as `sendOrderToUtmfy`
does before POSTing. `fmtDate` stands for `formatUtmfyDate` (wall-clock date
reformatting, kept abstract); `createdAt` is the already-formatted current
time (`formatUtmfyDate(new Date()) || ""`). -/
def buildUtmfyOrder (fmtDate : String → String) (createdAt : String)
    (params : SendOrderParams) : UtmfyOrderRequest :=
  { orderId := params.orderId
    platform := "CometaPapelaria"
    paymentMethod := params.paymentMethod
    status := if params.status = "approved" then "paid" else params.status
    createdAt := createdAt
    approvedDate :=
      match truthyOpt params.approvedDate with
      | some s => some (fmtDate s)
      | none => none
    refundedAt := none
    customer :=
      { name := params.customer.name
        email := params.customer.email
        phone := params.customer.phone
        document := params.customer.document
        country := strOrElse params.customer.country "BR" }
    products := params.products.map (fun p =>
      { id := p.id, name := p.name, planId := none, planName := none
        quantity := p.quantity, priceInCents := p.priceInCents })
    trackingParameters :=
      match params.trackingParams with
      | none => emptyTrackingParams
      | some tp =>
          ⟨truthyOpt tp.src, truthyOpt tp.sck, truthyOpt tp.utm_source,
           truthyOpt tp.utm_medium, truthyOpt tp.utm_campaign,
           truthyOpt tp.utm_content, truthyOpt tp.utm_term⟩
    commission :=
      { totalPriceInCents := params.commission.totalPriceInCents
        gatewayFeeInCents := params.commission.gatewayFeeInCents
        userCommissionInCents := params.commission.userCommissionInCents
        currency := "BRL" } }

/-- The Tracking Service send (`sendOrderToUtmfy`): builds the report, then the
`fetch` outcome (`Except.error` models a thrown network error, `Except.ok` an
HTTP response of any status) is turned into a structured result; no outcome is
re-raised. Returns the report body sent together with the result value. -/
def sendOrderToUtmfy (fmtDate : String → String) (createdAt : String)
    (fetchResult : Except String HttpResponse) (params : SendOrderParams) :
    UtmfyOrderRequest × UtmfySendResult :=
  let order := buildUtmfyOrder fmtDate createdAt params
  match fetchResult with
  | .error e => (order, ⟨false, some e, none⟩)
  | .ok r =>
      if r.ok then (order, ⟨true, none, some r.body⟩)
      else (order, ⟨false, some r.body, some r.body⟩)

/-- Payment status spellings to the Tracking Service vocabulary
(`mapStatusToUtmfy`). -/
def mapStatusToUtmfy (status : String) : String :=
  match status with
  | "waiting_payment" => "waiting_payment"
  | "pending" => "waiting_payment"
  | "approved" => "paid"
  | "paid" => "paid"
  | "refused" => "refused"
  | "cancelled" => "refused"
  | "refunded" => "refunded"
  | "chargeback" => "chargedback"
  | _ => "waiting_payment"

/-! ## Charge-creation handler (`POST /api/pix/create`) -/

/-- Server-side products total: `items.reduce((acc, item) => acc + item.price * item.quantity, 0)`. -/
def itemsTotal (items : List Item) : ℚ :=
  items.foldl (fun acc item => acc + item.price * item.quantity) 0

/-- Shipping fee: `shipping?.price || 0` (0 when no shipping option is given). -/
def shippingFeeOf (shipping : Option Shipping) : ℚ :=
  match shipping with
  | none => 0
  | some s => if s.price = 0 then 0 else s.price

/-- The server-side recomputed charge amount (`finalAmount`). -/
def finalAmountOf (req : CreatePixRequest) : ℚ :=
  itemsTotal req.items + shippingFeeOf req.shipping

/-- CEP normalization: strip non-digits, then re-insert a hyphen after the 5th
digit exactly when 8 digits remain. -/
def formatCep (cep : String) : String :=
  let cepNumbers := stripNonDigits cep
  if cepNumbers.length = 8 then
    String.mk (cepNumbers.data.take 5) ++ "-" ++ String.mk (cepNumbers.data.drop 5)
  else cepNumbers

/-- One metadata entry spread in via `...(v && { key: v })`: present iff `v` is truthy. -/
def optEntry (key : String) (v : Option String) : List (String × String) :=
  match truthyOpt v with
  | some s => [(key, s)]
  | none => []

/-- The metadata bag of the create-charge call: fixed source tag plus the
truthy `utm_source` / `utm_medium` / `utm_campaign` attribution parameters. -/
def buildMetadata (tp : Option TrackingParams) : List (String × String) :=
  ("source", "CometaPapelaria") ::
    (match tp with
     | none => []
     | some t =>
         optEntry "utm_source" t.utm_source ++ optEntry "utm_medium" t.utm_medium ++
           optEntry "utm_campaign" t.utm_campaign)

/-- The `createPixPayment` argument record built by the charge-creation handler. -/
def buildPixArgs (appUrl : Option String) (orderId : String)
    (req : CreatePixRequest) : PixCallArgs :=
  { identifier := orderId
    amount := finalAmountOf req
    shippingFee := shippingFeeOf req.shipping
    discount := 0
    client :=
      { name := req.customer.name
        email := req.customer.email
        phone := stripNonDigits req.customer.phone
        document := stripNonDigits req.customer.cpf
        cpf := stripNonDigits req.customer.cpf
        address :=
          { country := "BR"
            zipCode := formatCep req.address.cep
            state := req.address.state
            city := req.address.city
            neighborhood := req.address.neighborhood
            street := req.address.street
            number := req.address.number
            complement := strOrElse req.address.complement "" } }
    products := req.items.map (fun item => ⟨item.id, item.name, item.price, item.quantity⟩)
    metadata := buildMetadata req.trackingParams
    callbackUrl := strOrElse appUrl "" ++ "/api/webhook/slimpay" }

/-- The `sendOrderToUtmfy` argument record built by the charge-creation handler
(the waiting_payment report of a freshly created charge). -/
def createUtmfyParams (orderId : String) (req : CreatePixRequest) : SendOrderParams :=
  { orderId := orderId
    status := "waiting_payment"
    paymentMethod := "pix"
    customer :=
      { name := req.customer.name
        email := req.customer.email
        phone := stripNonDigits req.customer.phone
        document := stripNonDigits req.customer.cpf
        country := none }
    products := req.items.map (fun item =>
      ⟨item.id, item.name, item.quantity, jsRound (item.price * 100)⟩)
    commission :=
      { totalPriceInCents := jsRound (finalAmountOf req * 100)
        gatewayFeeInCents := 0
        userCommissionInCents := jsRound (finalAmountOf req * 100) }
    trackingParams := some (req.trackingParams.getD emptyTrackingParams)
    approvedDate := none }

/-- HTTP response of the charge-creation handler: a JSON error with status
code, or the 200 success body. -/
inductive CreateResponse where
  | error (status : Nat) (message : String)
  | success (transactionId : String) (orderId : String) (qrcode : String)
      (expiresAt : String) (orderRespId : String) (orderAmount : ℚ)
deriving DecidableEq

/-- HTTP status code of a charge-creation response. -/
def CreateResponse.statusCode : CreateResponse → Nat
  | .error s _ => s
  | .success _ _ _ _ _ _ => 200

/-- Outcome of the best-effort Tracking Service send attempted inside the
handler's try/catch: a structured result, or a thrown error. -/
inductive UtmfyOutcome where
  | ok
  | fail
  | throws
deriving DecidableEq

/-- Observable behaviour of one charge-creation request: the HTTP response
plus the outbound calls that were attempted. -/
structure CreateOutput where
  response : CreateResponse
  pixCall : Option PixCallArgs
  utmfyCall : Option SendOrderParams
deriving DecidableEq

/-- The charge-creation handler (`POST` of the create route). `appUrl` is
`process.env.NEXT_PUBLIC_APP_URL`, `orderId` the fresh `generateOrderId()`
value, `pixo` the Payment Provider's behaviour on the create-charge call, and
`trackingOutcome` the outcome of the Tracking Service send, which the
handler's try/catch swallows; the response never depends on it. -/
def createHandler (appUrl : Option String) (orderId : String)
    (pixo : PixCallArgs → PixResult) (trackingOutcome : UtmfyOutcome)
    (req : CreatePixRequest) : CreateOutput :=
  if req.customer.name = "" ∨ req.customer.email = "" ∨
      req.customer.cpf = "" ∨ req.customer.phone = "" then
    ⟨.error 400 "Dados do cliente incompletos", none, none⟩
  else if req.items = [] then
    ⟨.error 400 "Carrinho vazio", none, none⟩
  else if (stripNonDigits req.customer.cpf).length ≠ 11 then
    ⟨.error 400 "CPF invalido. Deve conter 11 digitos.", none, none⟩
  else
    match pixo (buildPixArgs appUrl orderId req) with
    | .err msg =>
        ⟨.error 400 (strOrElse msg "Erro ao gerar PIX"), some (buildPixArgs appUrl orderId req), none⟩
    | .ok d =>
        ⟨.success d.transactionId orderId d.qrCode d.expiresAt d.orderId d.orderAmount,
         some (buildPixArgs appUrl orderId req), some (createUtmfyParams orderId req)⟩

/-! ## Webhook handler (`POST /api/webhook/slimpay`) -/

/-- Client block of a Payment Provider webhook payload. -/
structure WebhookClient where
  id : String
  name : String
  email : String
  phone : String
  cpf : Option String
  cnpj : Option String
deriving DecidableEq

/-- Transaction block of a Payment Provider webhook payload. -/
structure WebhookTransaction where
  id : String
  identifier : String
  status : String
  paymentMethod : String
  amount : ℚ
  createdAt : String
  payedAt : Option String
deriving DecidableEq

/-- Product reference inside a webhook order item. -/
structure OrderItemProduct where
  id : String
  name : String
  externalId : Option String
deriving DecidableEq

/-- One entry of `orderItems` in a webhook payload. -/
structure WebhookOrderItem where
  id : String
  price : ℚ
  product : OrderItemProduct
deriving DecidableEq

/-- A Payment Provider webhook payload (`SlimPayWebhookPayload`); the
`trackProps` string record is collapsed to the seven attribution fields that
are read downstream. -/
structure SlimPayWebhookPayload where
  event : String
  token : String
  client : WebhookClient
  transaction : WebhookTransaction
  orderItems : List WebhookOrderItem
  trackProps : Option TrackingParams
deriving DecidableEq

/-- HTTP response of the webhook handler. -/
inductive WebhookResponse where
  | err401 (message : String)
  | ok200 (event : String) (orderId : String) (status : String)
deriving DecidableEq

/-- HTTP status code of a webhook response. -/
def WebhookResponse.statusCode : WebhookResponse → Nat
  | .err401 _ => 401
  | .ok200 _ _ _ => 200

/-- Observable behaviour of one webhook request: the HTTP response plus the
Tracking Service call that was attempted, if any. -/
structure WebhookOutput where
  response : WebhookResponse
  utmfyCall : Option SendOrderParams
deriving DecidableEq

/-- The reduced products list every webhook branch sends to the Tracking
Service: quantity 1, external product id preferred, price in cents. -/
def webhookProducts (p : SlimPayWebhookPayload) : List UtmfyProductParam :=
  p.orderItems.map (fun item =>
    ⟨strOrElse item.product.externalId item.product.id, item.product.name, 1,
     jsRound (item.price * 100)⟩)

/-- Tracking Service call built by the `TRANSACTION_PAID` webhook branch. -/
def paidUtmfyParams (p : SlimPayWebhookPayload) : SendOrderParams :=
  { orderId := p.transaction.identifier
    status := "approved"
    paymentMethod := toLowerStr p.transaction.paymentMethod
    customer :=
      { name := p.client.name
        email := p.client.email
        phone := p.client.phone
        document := strOrElse p.client.cpf (strOrElse p.client.cnpj "")
        country := none }
    products := webhookProducts p
    commission :=
      { totalPriceInCents := jsRound (p.transaction.amount * 100)
        gatewayFeeInCents := 0
        userCommissionInCents := jsRound (p.transaction.amount * 100) }
    trackingParams := some (p.trackProps.getD emptyTrackingParams)
    approvedDate := p.transaction.payedAt }

/-- Tracking Service call built by the `TRANSACTION_CANCELED` webhook branch. -/
def canceledUtmfyParams (p : SlimPayWebhookPayload) : SendOrderParams :=
  { orderId := p.transaction.identifier
    status := "refused"
    paymentMethod := toLowerStr p.transaction.paymentMethod
    customer :=
      { name := p.client.name
        email := p.client.email
        phone := p.client.phone
        document := strOrElse p.client.cpf (strOrElse p.client.cnpj "")
        country := none }
    products := webhookProducts p
    commission :=
      { totalPriceInCents := jsRound (p.transaction.amount * 100)
        gatewayFeeInCents := 0
        userCommissionInCents := jsRound (p.transaction.amount * 100) }
    trackingParams := some (p.trackProps.getD emptyTrackingParams)
    approvedDate := none }

/-- Tracking Service call built by the `TRANSACTION_REFUNDED` webhook branch. -/
def refundedUtmfyParams (p : SlimPayWebhookPayload) : SendOrderParams :=
  { orderId := p.transaction.identifier
    status := "refunded"
    paymentMethod := toLowerStr p.transaction.paymentMethod
    customer :=
      { name := p.client.name
        email := p.client.email
        phone := p.client.phone
        document := strOrElse p.client.cpf (strOrElse p.client.cnpj "")
        country := none }
    products := webhookProducts p
    commission :=
      { totalPriceInCents := jsRound (p.transaction.amount * 100)
        gatewayFeeInCents := 0
        userCommissionInCents := jsRound (p.transaction.amount * 100) }
    trackingParams := some (p.trackProps.getD emptyTrackingParams)
    approvedDate := none }

/-- The webhook handler (`POST` of the webhook route). `expectedToken` is
`process.env.SLIMPAY_WEBHOOK_TOKEN`; the per-branch Tracking Service failures
are swallowed by try/catch, so only the attempted call is recorded. -/
def webhookHandler (expectedToken : Option String)
    (p : SlimPayWebhookPayload) : WebhookOutput :=
  if envTruthy expectedToken && !verifyWebhookToken p.token expectedToken then
    ⟨.err401 "Invalid token", none⟩
  else
    ⟨.ok200 p.event p.transaction.identifier (mapSlimPayStatus p.transaction.status),
     match p.event with
     | "TRANSACTION_PAID" => some (paidUtmfyParams p)
     | "TRANSACTION_CANCELED" => some (canceledUtmfyParams p)
     | "TRANSACTION_REFUNDED" => some (refundedUtmfyParams p)
     | _ => none⟩

/-! ## Concrete sample inputs -/

/-- Sample customer of the end-to-end scenario. -/
def sampleCustomer : Customer :=
  ⟨"Ana Silva", "ana@example.com", "123.456.789-01", "(11) 99999-9999"⟩

/-- Sample delivery address. -/
def sampleAddress : Address :=
  ⟨"12345678", "Rua A", "10", none, "Centro", "Sao Paulo", "SP"⟩

/-- Sample cart item: price 10.00, quantity 2. -/
def sampleItem : Item := ⟨"sku-1", "Caderno", 10, 2⟩

/-- Sample shipping option with fee 5.00. -/
def sampleShipping : Shipping := ⟨"sedex", "Sedex", 5, "3"⟩

/-- Sample checkout request; the client-supplied `total` of 999 is deliberately
wrong so that the server-side recomputation is observable. -/
def sampleReq : CreatePixRequest :=
  ⟨sampleCustomer, sampleAddress, [sampleItem], 999, some sampleShipping, none⟩

/-- Sample successful create-charge response data. -/
def samplePixData : PixData :=
  ⟨"tx-1", "OK", 0, "order-1", 25, "BRL", "qr-code", "2026-01-01"⟩

/-- A Payment Provider that accepts every charge with `samplePixData`. -/
def okOracle : PixCallArgs → PixResult := fun _ => .ok samplePixData

/-- Sample webhook payload for a paid transaction. -/
def sampleWebhookPayload : SlimPayWebhookPayload :=
  { event := "TRANSACTION_PAID"
    token := "tok-1"
    client := ⟨"cl-1", "Ana Silva", "ana@example.com", "11999999999", some "12345678901", none⟩
    transaction := ⟨"tx-1", "ORD-1", "COMPLETED", "PIX", 25, "2026-01-01", some "2026-01-02"⟩
    orderItems := [⟨"oi-1", 25, ⟨"p-1", "Caderno", none⟩⟩]
    trackProps := none }

/-- The sample webhook payload carrying a wrong token. -/
def sampleBadTokenPayload : SlimPayWebhookPayload :=
  { sampleWebhookPayload with token := "wrong" }

/-- The sample request with an emptied customer name. -/
def emptyNameReq : CreatePixRequest :=
  { sampleReq with customer := { sampleCustomer with name := "" } }

/-- Attribution parameters carrying only `src`. -/
def srcOnlyTrackingParams : TrackingParams :=
  ⟨some "fb-campaign", none, none, none, none, none, none⟩

/-- The sample request with `src`-only attribution parameters. -/
def srcOnlyReq : CreatePixRequest :=
  { sampleReq with trackingParams := some srcOnlyTrackingParams }

/-- Attribution parameters with all seven fields present. -/
def fullTrackingParams : TrackingParams :=
  ⟨some "fb", some "ck", some "google", some "cpc", some "summer", some "banner", some "pen"⟩

/-- The sample request with all seven attribution parameters present. -/
def fullTrackingReq : CreatePixRequest :=
  { sampleReq with trackingParams := some fullTrackingParams }

/-! ## Shared inversion lemmas about the handlers -/

/-- Whenever the charge-creation handler records a Payment Provider call, that
call is the one built by `buildPixArgs`. -/
theorem pixCall_inv (appUrl : Option String) (orderId : String)
    (pixo : PixCallArgs → PixResult) (o : UtmfyOutcome) (req : CreatePixRequest)
    (c : PixCallArgs)
    (hc : (createHandler appUrl orderId pixo o req).pixCall = some c) :
    c = buildPixArgs appUrl orderId req := by
  unfold createHandler at hc
  split at hc
  · simp at hc
  · split at hc
    · simp at hc
    · split at hc
      · simp at hc
      · split at hc <;> simp_all

/-- Whenever the charge-creation handler records a Tracking Service call, that
call is the one built by `createUtmfyParams`. -/
theorem create_utmfyCall_inv (appUrl : Option String) (orderId : String)
    (pixo : PixCallArgs → PixResult) (o : UtmfyOutcome) (req : CreatePixRequest)
    (c : SendOrderParams)
    (hc : (createHandler appUrl orderId pixo o req).utmfyCall = some c) :
    c = createUtmfyParams orderId req := by
  unfold createHandler at hc
  split at hc
  · simp at hc
  · split at hc
    · simp at hc
    · split at hc
      · simp at hc
      · split at hc <;> simp_all

/-- Whenever the webhook handler records a Tracking Service call, that call is
the paid, canceled or refunded branch report. -/
theorem webhook_utmfyCall_inv (expectedToken : Option String)
    (p : SlimPayWebhookPayload) (c : SendOrderParams)
    (hc : (webhookHandler expectedToken p).utmfyCall = some c) :
    c = paidUtmfyParams p ∨ c = canceledUtmfyParams p ∨ c = refundedUtmfyParams p := by
  unfold webhookHandler at hc
  split at hc
  · simp at hc
  · simp only at hc
    split at hc <;> simp_all

/-! ## Claim theorems -/

/-- C1: for every checkout request with a non-empty item list, the amount of
the Payment Provider create-charge call equals the server-side sum of
price × quantity over the items plus the shipping fee (0 when no shipping
option is given), and is independent of the caller-supplied `total` field. -/
theorem create_charge_amount_server_side (appUrl : Option String) (orderId : String)
    (pixo : PixCallArgs → PixResult) (o : UtmfyOutcome) (req : CreatePixRequest)
    (hitems : req.items ≠ []) :
    shippingFeeOf none = 0 ∧
    (∀ c, (createHandler appUrl orderId pixo o req).pixCall = some c →
      c.amount = itemsTotal req.items + shippingFeeOf req.shipping) ∧
    (∀ t : ℚ, (createHandler appUrl orderId pixo o { req with total := t }).pixCall =
      (createHandler appUrl orderId pixo o req).pixCall) := by
  refine ⟨rfl, ?_, ?_⟩
  · intro c hc
    rw [pixCall_inv appUrl orderId pixo o req c hc]
    rfl
  · intro t
    rfl

/-- C1 witness: the cart with one item of price 10.00 and quantity 2 plus a
5.00 shipping fee is charged exactly 25.00, not the spoofed total 999. -/
theorem create_charge_amount_server_side_witness :
    sampleReq.items ≠ [] ∧ sampleReq.total = 999 ∧
    (createHandler none "ORD-1" okOracle UtmfyOutcome.ok sampleReq).pixCall =
      some (buildPixArgs none "ORD-1" sampleReq) ∧
    (buildPixArgs none "ORD-1" sampleReq).amount = 25 := by
  have h := create_charge_amount_server_side none "ORD-1" okOracle UtmfyOutcome.ok
    sampleReq (by decide)
  refine ⟨by decide, rfl, rfl, ?_⟩
  rw [h.2.1 (buildPixArgs none "ORD-1" sampleReq) rfl]
  show itemsTotal [sampleItem] + shippingFeeOf (some sampleShipping) = 25
  simp [itemsTotal, shippingFeeOf, sampleItem, sampleShipping]
  norm_num

/-- C2: under the presence validations, the document is normalized by
stripping every non-digit character; a normalized length other than 11 yields
the 400 response with no Payment Provider call, and a length of exactly 11
makes the normalized string the document of the Payment Provider call;
"123.456.789-01" normalizes to "12345678901". -/
theorem create_document_normalization (appUrl : Option String) (orderId : String)
    (pixo : PixCallArgs → PixResult) (o : UtmfyOutcome) (req : CreatePixRequest)
    (hname : req.customer.name ≠ "") (hemail : req.customer.email ≠ "")
    (hcpf : req.customer.cpf ≠ "") (hphone : req.customer.phone ≠ "")
    (hitems : req.items ≠ []) :
    (∀ ch ∈ (stripNonDigits req.customer.cpf).data, ch.isDigit = true) ∧
    ((stripNonDigits req.customer.cpf).length ≠ 11 →
      (createHandler appUrl orderId pixo o req).response =
        .error 400 "CPF invalido. Deve conter 11 digitos." ∧
      (createHandler appUrl orderId pixo o req).pixCall = none) ∧
    ((stripNonDigits req.customer.cpf).length = 11 →
      ∃ c, (createHandler appUrl orderId pixo o req).pixCall = some c ∧
        c.client.document = stripNonDigits req.customer.cpf) ∧
    stripNonDigits "123.456.789-01" = "12345678901" := by
  have hv : ¬(req.customer.name = "" ∨ req.customer.email = "" ∨
      req.customer.cpf = "" ∨ req.customer.phone = "") := by
    push_neg
    exact ⟨hname, hemail, hcpf, hphone⟩
  refine ⟨?_, ?_, ?_, by decide⟩
  · intro ch hch
    exact (List.mem_filter.mp hch).2
  · intro hlen
    unfold createHandler
    rw [if_neg hv, if_neg hitems, if_pos hlen]
    exact ⟨rfl, rfl⟩
  · intro hlen
    unfold createHandler
    rw [if_neg hv, if_neg hitems, if_neg (by simp [hlen])]
    cases hpx : pixo (buildPixArgs appUrl orderId req) with
    | err m => exact ⟨buildPixArgs appUrl orderId req, rfl, rfl⟩
    | ok d => exact ⟨buildPixArgs appUrl orderId req, rfl, rfl⟩

/-- C2 witness: the sample document "123.456.789-01" has 11 digits once
normalized and is sent to the Payment Provider as "12345678901". -/
theorem create_document_normalization_witness :
    (stripNonDigits sampleReq.customer.cpf).length = 11 ∧
    (createHandler none "ORD-1" okOracle UtmfyOutcome.ok sampleReq).pixCall =
      some (buildPixArgs none "ORD-1" sampleReq) ∧
    (buildPixArgs none "ORD-1" sampleReq).client.document = "12345678901" := by
  have h := create_document_normalization none "ORD-1" okOracle UtmfyOutcome.ok sampleReq
    (by decide) (by decide) (by decide) (by decide) (by decide)
  obtain ⟨c, hc, hdoc⟩ := h.2.2.1 (by decide)
  have hb : (createHandler none "ORD-1" okOracle UtmfyOutcome.ok sampleReq).pixCall =
      some (buildPixArgs none "ORD-1" sampleReq) := rfl
  rw [hb] at hc
  injection hc with hc
  subst hc
  exact ⟨by decide, hb, by rw [hdoc]; decide⟩

/-- C5: a checkout request missing the customer name, email, document or
phone, or with an empty item list, receives a 400 response with a non-empty
message and triggers neither a Payment Provider nor a Tracking Service call. -/
theorem create_validation_rejects (appUrl : Option String) (orderId : String)
    (pixo : PixCallArgs → PixResult) (o : UtmfyOutcome) (req : CreatePixRequest)
    (h : req.customer.name = "" ∨ req.customer.email = "" ∨ req.customer.cpf = "" ∨
      req.customer.phone = "" ∨ req.items = []) :
    ∃ msg, msg ≠ "" ∧
      (createHandler appUrl orderId pixo o req).response = .error 400 msg ∧
      (createHandler appUrl orderId pixo o req).pixCall = none ∧
      (createHandler appUrl orderId pixo o req).utmfyCall = none := by
  unfold createHandler
  by_cases h4 : req.customer.name = "" ∨ req.customer.email = "" ∨
      req.customer.cpf = "" ∨ req.customer.phone = ""
  · rw [if_pos h4]
    exact ⟨_, by decide, rfl, rfl, rfl⟩
  · have hi : req.items = [] := by tauto
    rw [if_neg h4, if_pos hi]
    exact ⟨_, by decide, rfl, rfl, rfl⟩

/-- C5 witness: the request with an emptied customer name is answered with
HTTP 400 and no outbound call is attempted. -/
theorem create_validation_rejects_witness :
    emptyNameReq.customer.name = "" ∧
    (createHandler none "ORD-1" okOracle UtmfyOutcome.ok emptyNameReq).response.statusCode = 400 ∧
    (createHandler none "ORD-1" okOracle UtmfyOutcome.ok emptyNameReq).pixCall = none ∧
    (createHandler none "ORD-1" okOracle UtmfyOutcome.ok emptyNameReq).utmfyCall = none := by
  obtain ⟨msg, hmsg, hr, hp, hu⟩ :=
    create_validation_rejects none "ORD-1" okOracle UtmfyOutcome.ok emptyNameReq (Or.inl rfl)
  exact ⟨rfl, by rw [hr]; rfl, hp, hu⟩

/-- C3: a configured expected webhook token that differs from the payload's
token yields the 401 response with no Tracking Service call; verification is
trivially true when no token is configured, and otherwise succeeds exactly on
string equality. -/
theorem webhook_token_gate :
    (∀ s p, s ≠ "" → p.token ≠ s →
      (webhookHandler (some s) p).response = .err401 "Invalid token" ∧
      (webhookHandler (some s) p).response.statusCode = 401 ∧
      (webhookHandler (some s) p).utmfyCall = none) ∧
    (∀ t e, envTruthy e = false → verifyWebhookToken t e = true) ∧
    (∀ t s, s ≠ "" → (verifyWebhookToken t (some s) = true ↔ t = s)) := by
  refine ⟨?_, ?_, ?_⟩
  · intro s p hs ht
    have hv : verifyWebhookToken p.token (some s) = false := by
      simp only [verifyWebhookToken]
      rw [if_neg hs]
      simpa using ht
    have hcond : (envTruthy (some s) && !verifyWebhookToken p.token (some s)) = true := by
      simp [envTruthy, hv, bne_iff_ne, hs]
    unfold webhookHandler
    rw [if_pos hcond]
    exact ⟨rfl, rfl, rfl⟩
  · intro t e he
    cases e with
    | none => rfl
    | some s =>
        have hs : s = "" := by simpa [envTruthy, bne_iff_ne] using he
        simp only [verifyWebhookToken]
        rw [if_pos hs]
  · intro t s hs
    simp only [verifyWebhookToken]
    rw [if_neg hs]
    exact beq_iff_eq

/-- C3 witness: with expected token "secret" and received token "wrong" the
webhook answers 401 and sends nothing to the Tracking Service; with no token
configured, verification reports success. -/
theorem webhook_token_gate_witness :
    sampleBadTokenPayload.token = "wrong" ∧
    (webhookHandler (some "secret") sampleBadTokenPayload).response.statusCode = 401 ∧
    (webhookHandler (some "secret") sampleBadTokenPayload).utmfyCall = none ∧
    verifyWebhookToken "anything" none = true := by
  have h := webhook_token_gate.1 "secret" sampleBadTokenPayload (by decide) (by decide)
  have h2 := webhook_token_gate.2.1 "anything" none rfl
  exact ⟨rfl, h.2.1, h.2.2, h2⟩

/-- C4: the charge-creation response never depends on the Tracking Service
outcome; once the Payment Provider call succeeds the response is the 200
success body carrying transaction id, order id, PIX code, expiry and order
amount; and the Tracking Service send turns any completed HTTP response,
success or not, into a structured result carrying the response body. -/
theorem create_success_independent_of_tracking (appUrl : Option String)
    (orderId : String) (pixo : PixCallArgs → PixResult) (req : CreatePixRequest) :
    (∀ o₁ o₂ : UtmfyOutcome,
      (createHandler appUrl orderId pixo o₁ req).response =
        (createHandler appUrl orderId pixo o₂ req).response) ∧
    (∀ o c d, (createHandler appUrl orderId pixo o req).pixCall = some c →
      pixo c = .ok d →
      (createHandler appUrl orderId pixo o req).response =
        .success d.transactionId orderId d.qrCode d.expiresAt d.orderId d.orderAmount ∧
      (createHandler appUrl orderId pixo o req).response.statusCode = 200) ∧
    (∀ fmtDate createdAt r params,
      (sendOrderToUtmfy fmtDate createdAt (.ok r) params).2.response = some r.body ∧
      ((sendOrderToUtmfy fmtDate createdAt (.ok r) params).2.success = true ↔ r.ok = true)) := by
  refine ⟨fun _ _ => rfl, ?_, ?_⟩
  · intro o c d hc hpx
    have hcb := pixCall_inv appUrl orderId pixo o req c hc
    subst hcb
    by_cases h1 : req.customer.name = "" ∨ req.customer.email = "" ∨
        req.customer.cpf = "" ∨ req.customer.phone = ""
    · exfalso
      unfold createHandler at hc
      rw [if_pos h1] at hc
      simp at hc
    by_cases h2 : req.items = []
    · exfalso
      unfold createHandler at hc
      rw [if_neg h1, if_pos h2] at hc
      simp at hc
    by_cases h3 : (stripNonDigits req.customer.cpf).length ≠ 11
    · exfalso
      unfold createHandler at hc
      rw [if_neg h1, if_neg h2, if_pos h3] at hc
      simp at hc
    unfold createHandler
    rw [if_neg h1, if_neg h2, if_neg h3, hpx]
    exact ⟨rfl, rfl⟩
  · intro fmtDate createdAt r params
    rcases r with ⟨ok, body⟩
    cases ok <;> simp [sendOrderToUtmfy]

/-- C4 witness: with a succeeding Payment Provider and a Tracking Service send
that throws, the handler still answers the 200 success body of the sample
charge. -/
theorem create_success_independent_of_tracking_witness :
    okOracle (buildPixArgs none "ORD-1" sampleReq) = .ok samplePixData ∧
    (createHandler none "ORD-1" okOracle UtmfyOutcome.throws sampleReq).response =
      .success "tx-1" "ORD-1" "qr-code" "2026-01-01" "order-1" 25 ∧
    (sendOrderToUtmfy id "now" (.ok ⟨false, "tracking rejected"⟩)
        (createUtmfyParams "ORD-1" sampleReq)).2.response = some "tracking rejected" := by
  have h := (create_success_independent_of_tracking none "ORD-1" okOracle sampleReq).2.1
    UtmfyOutcome.throws (buildPixArgs none "ORD-1" sampleReq) samplePixData rfl rfl
  have h3 := (create_success_independent_of_tracking none "ORD-1" okOracle sampleReq).2.2
    id "now" ⟨false, "tracking rejected"⟩ (createUtmfyParams "ORD-1" sampleReq)
  exact ⟨rfl, by rw [h.1]; rfl, h3.1⟩

/-- C10: every order report sent to the Tracking Service, from the
charge-creation handler and from each webhook branch, reports a zero gateway
fee and a net commission equal to the gross amount, the transaction amount
rounded to integer cents. -/
theorem commission_breakdown_invariant :
    (∀ appUrl orderId pixo o req c,
      (createHandler appUrl orderId pixo o req).utmfyCall = some c →
      c.commission.gatewayFeeInCents = 0 ∧
      c.commission.userCommissionInCents = c.commission.totalPriceInCents ∧
      c.commission.totalPriceInCents = jsRound (finalAmountOf req * 100)) ∧
    (∀ expectedToken p c,
      (webhookHandler expectedToken p).utmfyCall = some c →
      c.commission.gatewayFeeInCents = 0 ∧
      c.commission.userCommissionInCents = c.commission.totalPriceInCents ∧
      c.commission.totalPriceInCents = jsRound (p.transaction.amount * 100)) := by
  constructor
  · intro appUrl orderId pixo o req c hc
    rw [create_utmfyCall_inv appUrl orderId pixo o req c hc]
    exact ⟨rfl, rfl, rfl⟩
  · intro expectedToken p c hc
    rcases webhook_utmfyCall_inv expectedToken p c hc with h | h | h <;>
      rw [h] <;> exact ⟨rfl, rfl, rfl⟩

/-- C10 witness: the commission invariant instantiated at the sample checkout
(25.00 → 2500 cents) and at the sample paid webhook. -/
theorem commission_breakdown_invariant_witness :
    (createUtmfyParams "ORD-1" sampleReq).commission.gatewayFeeInCents = 0 ∧
    (createUtmfyParams "ORD-1" sampleReq).commission.userCommissionInCents =
      (createUtmfyParams "ORD-1" sampleReq).commission.totalPriceInCents ∧
    (createUtmfyParams "ORD-1" sampleReq).commission.totalPriceInCents = 2500 ∧
    (paidUtmfyParams sampleWebhookPayload).commission.gatewayFeeInCents = 0 ∧
    (paidUtmfyParams sampleWebhookPayload).commission.userCommissionInCents =
      (paidUtmfyParams sampleWebhookPayload).commission.totalPriceInCents := by
  have h1 := commission_breakdown_invariant.1 none "ORD-1" okOracle UtmfyOutcome.ok
    sampleReq (createUtmfyParams "ORD-1" sampleReq) rfl
  have h2 := commission_breakdown_invariant.2 none sampleWebhookPayload
    (paidUtmfyParams sampleWebhookPayload) rfl
  refine ⟨h1.1, h1.2.1, ?_, h2.1, h2.2.1⟩
  rw [h1.2.2]
  show jsRound ((itemsTotal [sampleItem] + shippingFeeOf (some sampleShipping)) * 100) = 2500
  simp [itemsTotal, shippingFeeOf, sampleItem, sampleShipping, jsRound]
  norm_num

/-- C6: the Payment Provider status mapping is total into the five-value
internal vocabulary, maps the seven provider statuses as enumerated, and sends
every other string to waiting_payment. -/
theorem slimpay_status_mapping :
    mapSlimPayStatus "COMPLETED" = "paid" ∧
    mapSlimPayStatus "PENDING" = "waiting_payment" ∧
    mapSlimPayStatus "FAILED" = "refused" ∧
    mapSlimPayStatus "REJECTED" = "refused" ∧
    mapSlimPayStatus "CANCELED" = "refused" ∧
    mapSlimPayStatus "REFUNDED" = "refunded" ∧
    mapSlimPayStatus "CHARGED_BACK" = "chargedback" ∧
    (∀ s, mapSlimPayStatus s ∈
      ["waiting_payment", "paid", "refused", "refunded", "chargedback"]) ∧
    (∀ s, s ∉ ["COMPLETED", "PENDING", "FAILED", "REJECTED", "CANCELED",
        "REFUNDED", "CHARGED_BACK"] →
      mapSlimPayStatus s = "waiting_payment") := by
  refine ⟨rfl, rfl, rfl, rfl, rfl, rfl, rfl, ?_, ?_⟩
  · intro s
    unfold mapSlimPayStatus
    split <;> simp
  · intro s hs
    unfold mapSlimPayStatus
    split <;> simp_all

/-- C6 witness: the unrecognized status "EXPIRED" falls back to
waiting_payment. -/
theorem slimpay_status_mapping_witness :
    "EXPIRED" ∉ ["COMPLETED", "PENDING", "FAILED", "REJECTED", "CANCELED",
      "REFUNDED", "CHARGED_BACK"] ∧
    mapSlimPayStatus "EXPIRED" = "waiting_payment" := by
  refine ⟨by decide, ?_⟩
  exact slimpay_status_mapping.2.2.2.2.2.2.2.2 "EXPIRED" (by decide)

/-- C7 counterexample: the Tracking Service status mapping does not fix the
canonical status "chargedback"; it has no case for it and the default sends it
to waiting_payment. -/
theorem utmfy_status_chargedback_not_identity :
    mapStatusToUtmfy "chargedback" = "waiting_payment" ∧
    mapStatusToUtmfy "chargedback" ≠ "chargedback" := by
  exact ⟨rfl, by decide⟩

/-- C7 amended: the Tracking Service status mapping is total into the
five-value canonical set, maps the aliases pending / cancelled / chargeback /
approved as enumerated, fixes waiting_payment, paid, refused and refunded, and
sends every string outside those eight cases, including the canonical
"chargedback" itself, to waiting_payment; and the send operation writes
status "paid" into the Attribution report exactly when its status parameter
is "approved", and the parameter's own value otherwise. -/
theorem utmfy_status_mapping_amended :
    mapStatusToUtmfy "pending" = "waiting_payment" ∧
    mapStatusToUtmfy "cancelled" = "refused" ∧
    mapStatusToUtmfy "chargeback" = "chargedback" ∧
    mapStatusToUtmfy "approved" = "paid" ∧
    mapStatusToUtmfy "waiting_payment" = "waiting_payment" ∧
    mapStatusToUtmfy "paid" = "paid" ∧
    mapStatusToUtmfy "refused" = "refused" ∧
    mapStatusToUtmfy "refunded" = "refunded" ∧
    (∀ s, mapStatusToUtmfy s ∈
      ["waiting_payment", "paid", "refused", "refunded", "chargedback"]) ∧
    (∀ s, s ∉ ["waiting_payment", "pending", "approved", "paid", "refused",
        "cancelled", "refunded", "chargeback"] →
      mapStatusToUtmfy s = "waiting_payment") ∧
    (∀ fmtDate createdAt params,
      (params.status = "approved" →
        (buildUtmfyOrder fmtDate createdAt params).status = "paid") ∧
      (params.status ≠ "approved" →
        (buildUtmfyOrder fmtDate createdAt params).status = params.status)) := by
  refine ⟨rfl, rfl, rfl, rfl, rfl, rfl, rfl, rfl, ?_, ?_, ?_⟩
  · intro s
    unfold mapStatusToUtmfy
    split <;> simp
  · intro s hs
    unfold mapStatusToUtmfy
    split <;> simp_all
  · intro fmtDate createdAt params
    constructor
    · intro h
      simp only [buildUtmfyOrder]
      rw [if_pos h]
    · intro h
      simp only [buildUtmfyOrder]
      rw [if_neg h]

/-- C7 witness: "chargedback" is outside the eight recognized spellings and
falls to the default; a send with status parameter "approved" reports "paid". -/
theorem utmfy_status_mapping_amended_witness :
    "chargedback" ∉ ["waiting_payment", "pending", "approved", "paid", "refused",
      "cancelled", "refunded", "chargeback"] ∧
    mapStatusToUtmfy "chargedback" = "waiting_payment" ∧
    (paidUtmfyParams sampleWebhookPayload).status = "approved" ∧
    (buildUtmfyOrder id "now" (paidUtmfyParams sampleWebhookPayload)).status = "paid" := by
  have h1 := utmfy_status_mapping_amended.2.2.2.2.2.2.2.2.2.1 "chargedback" (by decide)
  have h2 := (utmfy_status_mapping_amended.2.2.2.2.2.2.2.2.2.2 id "now"
    (paidUtmfyParams sampleWebhookPayload)).1 rfl
  exact ⟨by decide, h1, rfl, h2⟩

/-- C8: postal-code normalization first keeps exactly the digit characters of
the input, in order; when exactly 8 digits remain the result is those digits
with a hyphen inserted after the 5th, and otherwise the digit string is
returned unchanged. -/
theorem cep_normalization (s : String) :
    (∀ ch ∈ (stripNonDigits s).data, ch.isDigit = true) ∧
    (stripNonDigits s).data.Sublist s.data ∧
    (∀ ch ∈ s.data, ch.isDigit = true → ch ∈ (stripNonDigits s).data) ∧
    ((stripNonDigits s).length = 8 →
      (formatCep s).data =
        (stripNonDigits s).data.take 5 ++ '-' :: (stripNonDigits s).data.drop 5) ∧
    ((stripNonDigits s).length ≠ 8 → formatCep s = stripNonDigits s) := by
  refine ⟨?_, ?_, ?_, ?_, ?_⟩
  · intro ch hch
    exact (List.mem_filter.mp hch).2
  · exact List.filter_sublist s.data
  · intro ch hch hd
    exact List.mem_filter.mpr ⟨hch, hd⟩
  · intro h8
    unfold formatCep
    rw [if_pos h8]
    show ((stripNonDigits s).data.take 5 ++ ['-']) ++ (stripNonDigits s).data.drop 5 =
      (stripNonDigits s).data.take 5 ++ '-' :: (stripNonDigits s).data.drop 5
    simp
  · intro h8
    unfold formatCep
    rw [if_neg h8]

/-- C8 witness: "12345678" has exactly 8 digits and normalizes to
"12345-678"; "1234-567" keeps only 7 digits and is returned as the bare digit
string. -/
theorem cep_normalization_witness :
    (stripNonDigits "12345678").length = 8 ∧
    (formatCep "12345678").data =
      (stripNonDigits "12345678").data.take 5 ++ '-' ::
        (stripNonDigits "12345678").data.drop 5 ∧
    formatCep "12345678" = "12345-678" ∧
    (stripNonDigits "1234-567").length ≠ 8 ∧
    formatCep "1234-567" = stripNonDigits "1234-567" := by
  have h := (cep_normalization "12345678").2.2.2.1 (by decide)
  have h7 := (cep_normalization "1234-567").2.2.2.2 (by decide)
  exact ⟨by decide, h, by decide, by decide, h7⟩

/-- Membership in a conditionally spread metadata entry: the key matches and
the value is the truthy value of the parameter. -/
theorem mem_optEntry_iff (k : String) (v : Option String) (kv : String × String) :
    kv ∈ optEntry k v ↔ kv.1 = k ∧ truthyOpt v = some kv.2 := by
  unfold optEntry
  cases h : truthyOpt v with
  | none => simp [h]
  | some s =>
      simp only [h, List.mem_singleton, Option.some.injEq, Prod.ext_iff]
      constructor
      · rintro ⟨h1, h2⟩
        exact ⟨h1, h2.symm⟩
      · rintro ⟨h1, h2⟩
        exact ⟨h1, h2.symm⟩

/-- C9 counterexample: a request whose attribution parameters carry `src`
produces a metadata bag that does not contain it; the bag holds only the
fixed source tag. -/
theorem metadata_drops_src_counterexample :
    srcOnlyReq.trackingParams = some srcOnlyTrackingParams ∧
    srcOnlyTrackingParams.src = some "fb-campaign" ∧
    (createHandler none "ORD-1" okOracle UtmfyOutcome.ok srcOnlyReq).pixCall =
      some (buildPixArgs none "ORD-1" srcOnlyReq) ∧
    (buildPixArgs none "ORD-1" srcOnlyReq).metadata = [("source", "CometaPapelaria")] ∧
    "src" ∉ (buildPixArgs none "ORD-1" srcOnlyReq).metadata.map Prod.fst := by
  exact ⟨rfl, rfl, rfl, by decide, by decide⟩

/-- C9 amended: the metadata bag of every create-charge call contains the
fixed source tag and, of the attribution parameters, exactly the present
(truthy) `utm_source`, `utm_medium` and `utm_campaign`; no other key — in
particular neither `src`, `sck`, `utm_content` nor `utm_term` — ever
appears. -/
theorem metadata_contents_amended (appUrl : Option String) (orderId : String)
    (pixo : PixCallArgs → PixResult) (o : UtmfyOutcome) (req : CreatePixRequest)
    (c : PixCallArgs)
    (hc : (createHandler appUrl orderId pixo o req).pixCall = some c) :
    ("source", "CometaPapelaria") ∈ c.metadata ∧
    (∀ kv ∈ c.metadata, kv.1 = "source" ∨ kv.1 = "utm_source" ∨
      kv.1 = "utm_medium" ∨ kv.1 = "utm_campaign") ∧
    (∀ v, ("utm_source", v) ∈ c.metadata ↔
      truthyOpt (req.trackingParams.bind TrackingParams.utm_source) = some v) ∧
    (∀ v, ("utm_medium", v) ∈ c.metadata ↔
      truthyOpt (req.trackingParams.bind TrackingParams.utm_medium) = some v) ∧
    (∀ v, ("utm_campaign", v) ∈ c.metadata ↔
      truthyOpt (req.trackingParams.bind TrackingParams.utm_campaign) = some v) := by
  have hb : c.metadata = buildMetadata req.trackingParams := by
    rw [pixCall_inv appUrl orderId pixo o req c hc]
    rfl
  rw [hb]
  clear hb hc
  cases req.trackingParams with
  | none =>
      refine ⟨by simp [buildMetadata], ?_, ?_, ?_, ?_⟩
      · intro kv hkv
        simp only [buildMetadata, List.mem_singleton] at hkv
        left
        rw [hkv]
      all_goals intro v
      all_goals simp [buildMetadata, truthyOpt]
  | some t =>
      refine ⟨by simp [buildMetadata], ?_, ?_, ?_, ?_⟩
      · intro kv hkv
        simp only [buildMetadata, List.mem_cons, List.mem_append,
          mem_optEntry_iff] at hkv
        rcases hkv with h | ((h | h) | h) <;> simp_all
      all_goals intro v
      all_goals simp [buildMetadata, List.mem_append, mem_optEntry_iff]

/-- C9 amended witness: with every attribution parameter present, the
metadata bag contains the source tag and the utm_source value, and the
present `utm_campaign` value is in the bag exactly as sent. -/
theorem metadata_contents_amended_witness :
    (createHandler none "ORD-1" okOracle UtmfyOutcome.ok fullTrackingReq).pixCall =
      some (buildPixArgs none "ORD-1" fullTrackingReq) ∧
    ("source", "CometaPapelaria") ∈ (buildPixArgs none "ORD-1" fullTrackingReq).metadata ∧
    ("utm_source", "google") ∈ (buildPixArgs none "ORD-1" fullTrackingReq).metadata ∧
    ("utm_campaign", "summer") ∈ (buildPixArgs none "ORD-1" fullTrackingReq).metadata := by
  have h := metadata_contents_amended none "ORD-1" okOracle UtmfyOutcome.ok
    fullTrackingReq (buildPixArgs none "ORD-1" fullTrackingReq) rfl
  refine ⟨rfl, h.1, ?_, ?_⟩
  · exact (h.2.2.1 "google").mpr (by decide)
  · exact (h.2.2.2.2 "summer").mpr (by decide)

end Validado
